import Mathlib

/-!
Verification of the PushToTalk daemon (`src/main.rs`).

The development shallowly embeds the program:

* `handle_key` embeds `PushToTalk::handle_key`: a pure function from the
  configured push-to-talk key and one key event to the `set_mute` invocation
  it performs (`some b` means `set_mute(b)` is called; `false` = unmute,
  `true` = mute).
* `set_mute` embeds `PushToTalk::set_mute`: running the external `pactl`
  command is represented by an oracle `env : Bool → Option Unit`
  (`none` means the command could not be run, in which case `.expect`
  panics; a panic is modelled as `Except.error`).
* The `PushToTalkManager` (listener `HashMap`, `on_new_device`,
  `on_delete_device`, and the inotify dispatch of `watch_inputs`) is embedded
  as a state machine over `ManagerState`.  Filesystem and device-open
  outcomes are oracle parameters of the transitions.
-/

/-- Key codes (`evdev::KeyCode` wraps a `u16`; only equality is used). -/
abbrev KeyCode := Nat

/-- The `evdev` event types; the listener only reacts to `KEY` events. -/
inductive EventType where
  | KEY
  | SYN
  | REL
  | ABS
  | MSC
  deriving DecidableEq, Repr

/-- One raw input event as consumed by `PushToTalk::listen`:
`event.event_type()`, `event.code()` (a `u16`), `event.value()` (an `i32`). -/
structure InputEvent where
  ev_type : EventType
  code : KeyCode
  value : Int
  deriving DecidableEq, Repr

/-- Embedding of `PushToTalk::handle_key`.  The returned value is the
argument of the `set_mute` call the function performs, if any:
`value == 1` calls `set_mute(false)` (unmute), `value == 0` calls
`set_mute(true)` (mute), anything else on the target key — and any event
for a different key — calls nothing. -/
def handle_key (ptt_key : KeyCode) (key : KeyCode) (value : Int) : Option Bool :=
  if key = ptt_key then
    if value = 1 then some false
    else if value = 0 then some true
    else none
  else none

/-- The `set_mute` invocation performed for one raw event in the body of
`PushToTalk::listen`: only events of type `KEY` are passed to
`handle_key` (with `KeyCode::new(event.code())`). -/
def eventEffect (ptt_key : KeyCode) (e : InputEvent) : Option Bool :=
  if e.ev_type = EventType.KEY then handle_key ptt_key e.code e.value else none

/-- The sequence of `set_mute` invocations (their boolean arguments, in
order) that `PushToTalk::listen` performs on a list of raw events from one
device's stream. -/
def deviceEffects (ptt_key : KeyCode) (events : List InputEvent) : List Bool :=
  events.filterMap (eventEffect ptt_key)

/-- The microphone mute state of the spec's data model. -/
inductive MuteState where
  | Muted
  | Unmuted
  deriving DecidableEq, Repr

/-- Effect on the microphone state of one `set_mute(b)` call: the program
runs `pactl set-source-mute @DEFAULT_SOURCE@ b`, which sets the default
source's mute state to `b` (so `true` yields `Muted`, `false` yields
`Unmuted`), regardless of the previous state. -/
def applyEffect (_s : MuteState) (b : Bool) : MuteState :=
  if b then MuteState.Muted else MuteState.Unmuted

/-- The microphone state after a sequence of `set_mute` invocations,
starting from `init`. -/
def stateAfter (init : MuteState) (effects : List Bool) : MuteState :=
  effects.foldl applyEffect init

/-- A key event that the controller treats as a transition of the target
key: a `KEY` event whose code is the target key and whose value is 0
(release) or 1 (press). -/
def isTransition (ptt_key : KeyCode) (e : InputEvent) : Bool :=
  decide (e.ev_type = EventType.KEY ∧ e.code = ptt_key ∧ (e.value = 0 ∨ e.value = 1))

/-- Embedding of `PushToTalk::set_mute`: the outcome of running the
`pactl` command is given by the oracle `env`; when the command cannot be
run (`none`) the `.expect("Failed to run pactl")` panics, modelled as an
`Except.error`. -/
def set_mute (env : Bool → Option Unit) (mute : Bool) : Except String Unit :=
  match env mute with
  | some _ => Except.ok ()
  | none => Except.error "Failed to run pactl"

/-- Effectful embedding of `PushToTalk::handle_key`, propagating the
outcome of the `set_mute` calls it performs (a panic inside `set_mute` is
not caught anywhere in the program). -/
def handle_key_run (env : Bool → Option Unit) (ptt_key : KeyCode) (key : KeyCode)
    (value : Int) : Except String Unit :=
  if key = ptt_key then
    if value = 1 then set_mute env false
    else if value = 0 then set_mute env true
    else Except.ok ()
  else Except.ok ()

/-- Rust `str::contains` on lists of characters: does `pat` occur as a
contiguous substring of the second argument? -/
def containsSub (pat : List Char) : List Char → Bool
  | [] => pat.isEmpty
  | c :: rest => pat.isPrefixOf (c :: rest) || containsSub pat rest

/-- Embedding of the classifier test in `PushToTalkManager::on_new_device`:
`d.name().unwrap_or_default().to_lowercase().contains("keyboard")`.
`devName` is the device's reported name (`None` when unavailable, in which
case `unwrap_or_default` yields the empty string). -/
def classifier_accepts (devName : Option String) : Bool :=
  containsSub "keyboard".toList ((devName.getD "").toList.map Char.toLower)

/-- One spawned listener thread.  `lid` identifies the thread (the value
`std::thread::spawn` returned a `JoinHandle` for), `device` the device
name it listens on, `running` whether `PushToTalk::listen` is still
executing, and `handleOpen` whether the `Device` owned by the thread's
`PushToTalk` is still open. -/
structure Listener where
  lid : Nat
  device : String
  running : Bool
  handleOpen : Bool
  deriving DecidableEq, Repr

/-- State of `PushToTalkManager` together with the threads it spawned.
`registry` is the `listener : HashMap<String, JoinHandle<PushToTalk>>`
field, as an association list with `HashMap` semantics (at most one entry
per key); `listeners` records every thread ever spawned (dropping a
`JoinHandle` merely detaches a thread, so a thread can outlive its map
entry); `nextId` supplies fresh thread identities. -/
structure ManagerState where
  registry : List (String × Nat)
  listeners : List Listener
  nextId : Nat
  deriving DecidableEq, Repr

/-- Rust `HashMap::insert`: any previous entry for the key is replaced. -/
def insertAssoc (m : List (String × Nat)) (k : String) (v : Nat) : List (String × Nat) :=
  m.filter (fun p => p.1 ≠ k) ++ [(k, v)]

/-- Rust `HashMap::remove`. -/
def removeAssoc (m : List (String × Nat)) (k : String) : List (String × Nat) :=
  m.filter (fun p => p.1 ≠ k)

/-- Rust `HashMap::contains_key`. -/
def containsKey (m : List (String × Nat)) (k : String) : Bool :=
  m.any (fun p => p.1 = k)

/-- Rust `HashMap::get`, for stating which entry a key currently has. -/
def lookupAssoc (m : List (String × Nat)) (k : String) : Option Nat :=
  (m.find? (fun p => p.1 = k)).map (fun p => p.2)

/-- Number of registry entries for one key. -/
def countKey (m : List (String × Nat)) (k : String) : Nat :=
  (m.filter (fun p => p.1 = k)).length

/-- Number of listener threads for device `name` that are still running. -/
def activeListenersFor (st : ManagerState) (name : String) : Nat :=
  (st.listeners.filter (fun l => l.device = name && l.running)).length

/-- Embedding of `PushToTalkManager::new` (before any device is added). -/
def initialState : ManagerState :=
  { registry := [], listeners := [], nextId := 0 }

/-- Embedding of `PushToTalkManager::on_new_device`.  `openResult` is the
outcome of `Device::open("/dev/input/{name}")`: `none` is an open error
(printed and skipped), `some devName` is success with reported device name
`devName` (itself optional).  On acceptance a listener thread is spawned
and `self.listener.insert(name, thread)` replaces any previous entry for
`name`; the replaced `JoinHandle` is dropped, which only detaches the old
thread — it keeps running and keeps its device open. -/
def on_new_device (st : ManagerState) (name : String) (openResult : Option (Option String)) :
    ManagerState :=
  match openResult with
  | none => st
  | some devName =>
    if classifier_accepts devName then
      { registry := insertAssoc st.registry name st.nextId
        listeners := st.listeners ++
          [{ lid := st.nextId, device := name, running := true, handleOpen := true }]
        nextId := st.nextId + 1 }
    else st

/-- Embedding of `PushToTalkManager::on_delete_device`: if the map has an
entry it is removed.  Dropping the removed `JoinHandle` detaches the
thread (Rust `std::thread` semantics); the `Device` is owned by the
`PushToTalk` moved into the thread, so neither the thread's execution nor
its open handle is affected. -/
def on_delete_device (st : ManagerState) (name : String) : ManagerState :=
  if containsKey st.registry name then
    { st with registry := removeAssoc st.registry name }
  else st

/-- A `fetch_events` failure on listener `lid`'s device (e.g. the device
node disappeared): the loop in `PushToTalk::listen` prints and breaks, the
thread finishes and the `PushToTalk` holding the `Device` is discarded,
releasing the handle. -/
def on_fetch_error (st : ManagerState) (lid : Nat) : ManagerState :=
  { st with
    listeners := st.listeners.map (fun l =>
      if l.lid = lid then { l with running := false, handleOpen := false } else l) }

/-- A panic inside listener `lid`'s thread — as `set_mute`'s
`.expect("Failed to run pactl")` raises when the command cannot be run.
`set_mute` is only ever called from `PushToTalk::listen`, which runs
exclusively inside the threads spawned in `on_new_device`; under Rust's
default `panic = unwind` strategy (nothing in the program overrides it)
the panic unwinds and terminates only that thread, dropping its
`PushToTalk` — and with it the open `Device` — on the way out.  The
watcher thread, the registry, and every other listener are unaffected. -/
def on_listener_panic (st : ManagerState) (lid : Nat) : ManagerState :=
  { st with
    listeners := st.listeners.map (fun l =>
      if l.lid = lid then { l with running := false, handleOpen := false } else l) }

/-- The inotify event masks distinguished by `watch_inputs` (plus others,
which it ignores). -/
inductive EventMask where
  | ATTRIB
  | DELETE
  | CREATE
  | MODIFY
  | ACCESS
  deriving DecidableEq, Repr

/-- One inotify notification: its mask and its (optional) file name. -/
structure INotifyEvent where
  mask : EventMask
  name : Option String
  deriving DecidableEq, Repr

/-- Embedding of the per-notification body of
`PushToTalkManager::watch_inputs`: `event.name.unwrap()` panics when the
payload has no name (modelled as `Except.error`); otherwise an `ATTRIB`
mask runs `on_new_device`, a `DELETE` mask runs `on_delete_device`, and
every other mask does nothing.  `openResult` is the `Device::open` oracle
consumed by `on_new_device` on the `ATTRIB` path. -/
def process_event (st : ManagerState) (ev : INotifyEvent)
    (openResult : Option (Option String)) : Except String ManagerState :=
  match ev.name with
  | none => Except.error "called Option.unwrap on a None value"
  | some name =>
    if ev.mask = EventMask.ATTRIB then Except.ok (on_new_device st name openResult)
    else if ev.mask = EventMask.DELETE then Except.ok (on_delete_device st name)
    else Except.ok st

/-- One transition of the system: a hotplug notification handled by the
watcher thread, a device-read failure ending one listener thread, or a
panic (e.g. a failed `set_mute`) inside one listener thread. -/
inductive Step : ManagerState → ManagerState → Prop where
  | newDevice (st : ManagerState) (name : String) (openResult : Option (Option String)) :
      Step st (on_new_device st name openResult)
  | deleteDevice (st : ManagerState) (name : String) :
      Step st (on_delete_device st name)
  | fetchError (st : ManagerState) (lid : Nat) :
      Step st (on_fetch_error st lid)
  | listenerPanic (st : ManagerState) (lid : Nat) :
      Step st (on_listener_panic st lid)

/-- States the system can reach from startup. -/
inductive Reachable : ManagerState → Prop where
  | init : Reachable initialState
  | step {s t : ManagerState} : Reachable s → Step s t → Reachable t

/-- The effects of a stream are exactly the per-transition effects: an
event contributes a `set_mute` call iff it is a target-key transition, and
the call's argument is `true` (mute) exactly for a release (`value = 0`). -/
theorem deviceEffects_eq_map_filter (ptt_key : KeyCode) (events : List InputEvent) :
    deviceEffects ptt_key events =
      (events.filter (isTransition ptt_key)).map (fun e => decide (e.value = 0)) := by
  induction events with
  | nil => rfl
  | cons e rest ih =>
    simp only [deviceEffects, List.filterMap_cons, List.filter_cons] at *
    by_cases ht : e.ev_type = EventType.KEY
    · by_cases hc : e.code = ptt_key
      · by_cases h1 : e.value = 1
        · simp [eventEffect, handle_key, isTransition, ht, hc, h1, ih]
        · by_cases h0 : e.value = 0
          · simp [eventEffect, handle_key, isTransition, ht, hc, h1, h0, ih]
          · simp [eventEffect, handle_key, isTransition, ht, hc, h1, h0, ih]
      · simp [eventEffect, handle_key, isTransition, ht, hc, ih]
    · simp [eventEffect, handle_key, isTransition, ht, ih]

/-- Claim C1: for a key event whose code equals the target key,
`handle_key` invokes unmute (`set_mute(false)`) when `value = 1`, mute
(`set_mute(true)`) when `value = 0`, and nothing when `value = 2`; a key
event whose code differs from the target key invokes nothing, whatever
its value. -/
theorem c1_handle_key_transition_table (ptt_key key : KeyCode) (value : Int) :
    handle_key ptt_key ptt_key 1 = some false ∧
    handle_key ptt_key ptt_key 0 = some true ∧
    handle_key ptt_key ptt_key 2 = none ∧
    (key ≠ ptt_key → handle_key ptt_key key value = none) := by
  refine ⟨by simp [handle_key], by simp [handle_key], by simp [handle_key], fun h => ?_⟩
  simp [handle_key, h]

/-- Witness for C1 at concrete inputs (target key 58, other key 30). -/
theorem c1_handle_key_transition_table_witness :
    handle_key 58 58 1 = some false ∧ handle_key 58 58 0 = some true ∧
    handle_key 58 58 2 = none ∧ handle_key 58 30 5 = none := by
  obtain ⟨h1, h0, h2, hn⟩ := c1_handle_key_transition_table 58 30 5
  exact ⟨h1, h0, h2, hn (by decide)⟩

/-- Claim C2: if the target-key transitions of a device's event stream are
exactly a press followed by a release, the listener performs exactly the
`set_mute` calls `[false, true]` — unmute then mute, no duplicates, no
reordering — and the microphone ends `Muted`, from any initial state. -/
theorem c2_press_then_release (ptt_key : KeyCode) (events : List InputEvent)
    (p r : InputEvent) (init : MuteState)
    (hf : events.filter (isTransition ptt_key) = [p, r])
    (hp : p.value = 1) (hr : r.value = 0) :
    deviceEffects ptt_key events = [false, true] ∧
    stateAfter init (deviceEffects ptt_key events) = MuteState.Muted := by
  have h := deviceEffects_eq_map_filter ptt_key events
  rw [hf] at h
  simp only [List.map_cons, List.map_nil, hp, hr] at h
  norm_num at h
  exact ⟨h, by rw [h]; rfl⟩

/-- Witness for C2: a two-event stream, press then release of key 58. -/
theorem c2_press_then_release_witness :
    deviceEffects 58 [⟨EventType.KEY, 58, 1⟩, ⟨EventType.KEY, 58, 0⟩] = [false, true] ∧
    stateAfter MuteState.Unmuted
      (deviceEffects 58 [⟨EventType.KEY, 58, 1⟩, ⟨EventType.KEY, 58, 0⟩]) = MuteState.Muted :=
  c2_press_then_release 58 [⟨EventType.KEY, 58, 1⟩, ⟨EventType.KEY, 58, 0⟩]
    ⟨EventType.KEY, 58, 1⟩ ⟨EventType.KEY, 58, 0⟩ MuteState.Unmuted (by decide) rfl rfl

/-- Claim C9: the controller is stateless — the `set_mute` calls of a
stream are the concatenation of the calls of its parts (each event's
effect depends only on that event), and two consecutive presses with no
intervening release invoke unmute twice. -/
theorem c9_controller_stateless (ptt_key : KeyCode) (xs ys : List InputEvent) :
    deviceEffects ptt_key (xs ++ ys) =
      deviceEffects ptt_key xs ++ deviceEffects ptt_key ys ∧
    deviceEffects ptt_key
      [⟨EventType.KEY, ptt_key, 1⟩, ⟨EventType.KEY, ptt_key, 1⟩] = [false, false] := by
  constructor
  · simp [deviceEffects]
  · simp [deviceEffects, eventEffect, handle_key]

/-- Counterexample to C7 as stated: a failed mute invocation does not
abort the process.  With `pactl` unrunnable, `set_mute` panics in
listener 0's thread (spawned for `event0`); the resulting state is
reachable, and in it the other listener (on `event1`) is still active and
the watcher thread still dispatches notifications — the process is still
running. -/
theorem c7_failed_invocation_does_not_abort_process :
    set_mute (fun _ => none) false = Except.error "Failed to run pactl" ∧
    Reachable (on_listener_panic
      (on_new_device (on_new_device initialState "event0" (some (some "AT Keyboard")))
        "event1" (some (some "USB Keyboard"))) 0) ∧
    activeListenersFor (on_listener_panic
      (on_new_device (on_new_device initialState "event0" (some (some "AT Keyboard")))
        "event1" (some (some "USB Keyboard"))) 0) "event1" = 1 ∧
    process_event (on_listener_panic
      (on_new_device (on_new_device initialState "event0" (some (some "AT Keyboard")))
        "event1" (some (some "USB Keyboard"))) 0)
      ⟨EventMask.DELETE, some "event0"⟩ none =
      Except.ok (on_delete_device (on_listener_panic
        (on_new_device (on_new_device initialState "event0" (some (some "AT Keyboard")))
          "event1" (some (some "USB Keyboard"))) 0) "event0") := by
  refine ⟨rfl, ?_, ?_, ?_⟩
  · exact Reachable.step
      (Reachable.step (Reachable.step Reachable.init (Step.newDevice _ _ _))
        (Step.newDevice _ _ _))
      (Step.listenerPanic _ 0)
  · decide
  · rfl

/-- Claim C7 (amended): when the `pactl` command cannot be run,
`set_mute`'s `.expect` panics, and nothing in the program catches the
panic — it escapes the key-handling path and is fatal for the listener
thread that performed the invocation: that listener stops and its device
handle is dropped during unwinding.  But only for that thread: the
registry, every other listener, and the watcher's dispatch continue
unaffected — the process does not abort. -/
theorem c7_panic_fatal_only_for_listener_thread (env : Bool → Option Unit)
    (ptt_key : KeyCode) (st : ManagerState) (lid : Nat) (ev_name : String)
    (hu : env false = none) (hm : env true = none) :
    set_mute env false = Except.error "Failed to run pactl" ∧
    set_mute env true = Except.error "Failed to run pactl" ∧
    handle_key_run env ptt_key ptt_key 1 = Except.error "Failed to run pactl" ∧
    handle_key_run env ptt_key ptt_key 0 = Except.error "Failed to run pactl" ∧
    (on_listener_panic st lid).registry = st.registry ∧
    (∀ l ∈ (on_listener_panic st lid).listeners, l.lid = lid →
      l.running = false ∧ l.handleOpen = false) ∧
    (∀ l ∈ st.listeners, l.lid ≠ lid → l ∈ (on_listener_panic st lid).listeners) ∧
    process_event (on_listener_panic st lid) ⟨EventMask.DELETE, some ev_name⟩ none =
      Except.ok (on_delete_device (on_listener_panic st lid) ev_name) := by
  refine ⟨by simp [set_mute, hu], by simp [set_mute, hm],
    by simp [handle_key_run, set_mute, hu], by simp [handle_key_run, set_mute, hm],
    rfl, ?_, ?_, rfl⟩
  · intro l hl hlid
    simp only [on_listener_panic, List.mem_map] at hl
    obtain ⟨l0, _, rfl⟩ := hl
    by_cases h0 : l0.lid = lid
    · simp [h0]
    · simp [h0] at hlid
  · intro l hl hne
    simp only [on_listener_panic, List.mem_map]
    exact ⟨l, hl, by simp [hne]⟩

/-- Witness for the amended C7: `pactl` never runs, and the panic hits
listener 0 of a state tracking `event0`. -/
theorem c7_panic_fatal_only_for_listener_thread_witness :
    set_mute (fun _ => none) false = Except.error "Failed to run pactl" ∧
    set_mute (fun _ => none) true = Except.error "Failed to run pactl" ∧
    handle_key_run (fun _ => none) 58 58 1 = Except.error "Failed to run pactl" ∧
    handle_key_run (fun _ => none) 58 58 0 = Except.error "Failed to run pactl" ∧
    (on_listener_panic (on_new_device initialState "event0"
      (some (some "AT Keyboard"))) 0).registry =
      (on_new_device initialState "event0" (some (some "AT Keyboard"))).registry ∧
    (∀ l ∈ (on_listener_panic (on_new_device initialState "event0"
      (some (some "AT Keyboard"))) 0).listeners, l.lid = 0 →
      l.running = false ∧ l.handleOpen = false) ∧
    (∀ l ∈ (on_new_device initialState "event0"
      (some (some "AT Keyboard"))).listeners, l.lid ≠ 0 →
      l ∈ (on_listener_panic (on_new_device initialState "event0"
        (some (some "AT Keyboard"))) 0).listeners) ∧
    process_event (on_listener_panic (on_new_device initialState "event0"
      (some (some "AT Keyboard"))) 0) ⟨EventMask.DELETE, some "event0"⟩ none =
      Except.ok (on_delete_device (on_listener_panic (on_new_device initialState
        "event0" (some (some "AT Keyboard"))) 0) "event0") :=
  c7_panic_fatal_only_for_listener_thread (fun _ => none) 58
    (on_new_device initialState "event0" (some (some "AT Keyboard"))) 0 "event0" rfl rfl

/-- Claim C5: a notification with a name is dispatched on its mask —
`ATTRIB` runs the add-device path, `DELETE` runs the remove-device path,
and any other mask leaves the whole manager state (hence the registry)
unchanged. -/
theorem c5_notification_dispatch (st : ManagerState) (m : EventMask) (name : String)
    (openResult : Option (Option String)) :
    process_event st ⟨EventMask.ATTRIB, some name⟩ openResult =
      Except.ok (on_new_device st name openResult) ∧
    process_event st ⟨EventMask.DELETE, some name⟩ openResult =
      Except.ok (on_delete_device st name) ∧
    (m ≠ EventMask.ATTRIB → m ≠ EventMask.DELETE →
      process_event st ⟨m, some name⟩ openResult = Except.ok st) := by
  refine ⟨rfl, rfl, fun h1 h2 => ?_⟩
  simp [process_event, h1, h2]

/-- Witness for C5 at a concrete state and a concrete ignored mask. -/
theorem c5_notification_dispatch_witness :
    process_event initialState ⟨EventMask.ATTRIB, some "event1"⟩ none =
      Except.ok (on_new_device initialState "event1" none) ∧
    process_event initialState ⟨EventMask.DELETE, some "event1"⟩ none =
      Except.ok (on_delete_device initialState "event1") ∧
    process_event initialState ⟨EventMask.CREATE, some "event1"⟩ none =
      Except.ok initialState := by
  obtain ⟨h1, h2, h3⟩ := c5_notification_dispatch initialState EventMask.CREATE "event1" none
  exact ⟨h1, h2, h3 (by decide) (by decide)⟩

/-- Claim C6: a failed device open is non-fatal — no listener entry is
created, the manager state is unchanged, and the watcher's dispatch still
returns normally; likewise when the classifier rejects the device. -/
theorem c6_open_failure_nonfatal (st : ManagerState) (name : String) (devName : Option String)
    (hrej : classifier_accepts devName = false) :
    on_new_device st name none = st ∧
    process_event st ⟨EventMask.ATTRIB, some name⟩ none = Except.ok st ∧
    on_new_device st name (some devName) = st := by
  refine ⟨rfl, rfl, ?_⟩
  simp [on_new_device, hrej]

/-- Witness for C6: open failure on `event5`, and a device named
"USB Mouse" rejected by the classifier. -/
theorem c6_open_failure_nonfatal_witness :
    on_new_device initialState "event5" none = initialState ∧
    process_event initialState ⟨EventMask.ATTRIB, some "event5"⟩ none =
      Except.ok initialState ∧
    on_new_device initialState "event5" (some (some "USB Mouse")) = initialState :=
  c6_open_failure_nonfatal initialState "event5" (some "USB Mouse") (by decide)

/-- Claim C8: a notification without a filename makes the watcher loop
fail fatally — `event.name.unwrap()` panics, so no successor state is
produced, whatever the mask. -/
theorem c8_missing_filename_fatal (st : ManagerState) (m : EventMask)
    (openResult : Option (Option String)) :
    process_event st ⟨m, none⟩ openResult =
      Except.error "called Option.unwrap on a None value" ∧
    ∀ st' : ManagerState, process_event st ⟨m, none⟩ openResult ≠ Except.ok st' := by
  refine ⟨rfl, fun st' h => ?_⟩
  simp [process_event] at h

/-- Witness for C8: a nameless `ATTRIB` notification at the initial state. -/
theorem c8_missing_filename_fatal_witness :
    process_event initialState ⟨EventMask.ATTRIB, none⟩ none =
      Except.error "called Option.unwrap on a None value" ∧
    process_event initialState ⟨EventMask.ATTRIB, none⟩ none ≠
      Except.ok initialState :=
  ⟨(c8_missing_filename_fatal initialState EventMask.ATTRIB none).1,
   (c8_missing_filename_fatal initialState EventMask.ATTRIB none).2 initialState⟩

/-- Claim C10: a device whose reported name is unavailable is treated as
having the empty name, which the classifier rejects, so the manager state
is unchanged and no listener is created. -/
theorem c10_missing_name_rejected (st : ManagerState) (name : String) :
    (none : Option String).getD "" = "" ∧
    classifier_accepts none = false ∧
    on_new_device st name (some none) = st := by
  have h : classifier_accepts none = false := by decide
  exact ⟨rfl, h, by simp [on_new_device, h]⟩

theorem countKey_append (xs ys : List (String × Nat)) (k : String) :
    countKey (xs ++ ys) k = countKey xs k + countKey ys k := by
  simp [countKey, List.filter_append]

theorem countKey_removeAssoc_self (m : List (String × Nat)) (k : String) :
    countKey (removeAssoc m k) k = 0 := by
  simp only [countKey, removeAssoc, List.filter_filter, List.length_eq_zero]
  apply List.filter_eq_nil_iff.mpr
  intro a _
  by_cases h : a.1 = k <;> simp [h]

theorem countKey_removeAssoc_le (m : List (String × Nat)) (k k' : String) :
    countKey (removeAssoc m k) k' ≤ countKey m k' := by
  apply List.Sublist.length_le
  exact List.Sublist.filter _ (List.filter_sublist _)

theorem countKey_insertAssoc_le_one (m : List (String × Nat)) (k k' : String) (v : Nat)
    (h : countKey m k' ≤ 1) : countKey (insertAssoc m k v) k' ≤ 1 := by
  have he : insertAssoc m k v = removeAssoc m k ++ [(k, v)] := rfl
  rw [he, countKey_append]
  by_cases hk : k' = k
  · subst hk
    rw [countKey_removeAssoc_self]
    simp [countKey]
  · have h1 := countKey_removeAssoc_le m k k'
    have h2 : countKey [(k, v)] k' = 0 := by
      have : ¬k = k' := fun hh => hk hh.symm
      simp [countKey, this]
    omega

theorem containsKey_removeAssoc_self (m : List (String × Nat)) (k : String) :
    containsKey (removeAssoc m k) k = false := by
  simp only [containsKey, removeAssoc, List.any_filter]
  apply List.any_eq_false.mpr
  intro a _
  by_cases h : a.1 = k <;> simp [h]

theorem on_new_device_countKey_le_one (st : ManagerState) (n : String)
    (r : Option (Option String)) (k : String) (h : countKey st.registry k ≤ 1) :
    countKey (on_new_device st n r).registry k ≤ 1 := by
  cases r with
  | none => exact h
  | some devName =>
    by_cases hc : classifier_accepts devName
    · simpa [on_new_device, hc] using countKey_insertAssoc_le_one st.registry n k st.nextId h
    · simpa [on_new_device, hc] using h

theorem on_delete_device_countKey_le_one (st : ManagerState) (n : String)
    (k : String) (h : countKey st.registry k ≤ 1) :
    countKey (on_delete_device st n).registry k ≤ 1 := by
  by_cases hc : containsKey st.registry n
  · simpa [on_delete_device, hc] using le_trans (countKey_removeAssoc_le st.registry n k) h
  · simpa [on_delete_device, hc] using h

/-- Every transition preserves the at-most-one-entry-per-key bound. -/
theorem step_countKey_le_one {s t : ManagerState} (hstep : Step s t) (k : String)
    (h : countKey s.registry k ≤ 1) : countKey t.registry k ≤ 1 := by
  cases hstep with
  | newDevice n r => exact on_new_device_countKey_le_one s n r k h
  | deleteDevice n => exact on_delete_device_countKey_le_one s n k h
  | fetchError lid => exact h
  | listenerPanic lid => exact h

/-- Claim C3 (amended): in every reachable state the Registry has at most
one entry per DeviceId (the `HashMap` replaces on insert). -/
theorem c3_registry_at_most_one_entry (st : ManagerState) (h : Reachable st)
    (name : String) : countKey st.registry name ≤ 1 := by
  induction h with
  | init => simp [initialState, countKey]
  | step hr hstep ih => exact step_countKey_le_one hstep name ih

/-- Witness for the amended C3, at a concrete reachable state. -/
theorem c3_registry_at_most_one_entry_witness :
    countKey (on_new_device initialState "event0" (some (some "AT Keyboard"))).registry
      "event0" ≤ 1 :=
  c3_registry_at_most_one_entry _
    (Reachable.step Reachable.init (Step.newDevice _ _ _)) "event0"

/-- Counterexample to C3 as stated: an attribute-change notification for
the already-tracked `event0` spawns a second listener while the first one
keeps running, so a reachable state has two active listeners for one
DeviceId. -/
theorem c3_two_active_listeners_reachable :
    ∃ st : ManagerState, Reachable st ∧ 2 ≤ activeListenersFor st "event0" := by
  refine ⟨on_new_device (on_new_device initialState "event0" (some (some "AT Keyboard")))
    "event0" (some (some "AT Keyboard")), ?_, ?_⟩
  · exact Reachable.step (Reachable.step Reachable.init (Step.newDevice _ _ _))
      (Step.newDevice _ _ _)
  · decide

/-- Counterexample to C4 as stated: `event0` has a registry entry (thread
id 0); after `on_delete_device` the entry is gone, yet the listener thread
is still running and its device handle is still open — removal neither
releases the handle nor terminates the listener. -/
theorem c4_remove_leaves_listener_running :
    lookupAssoc (on_new_device initialState "event0"
      (some (some "AT Keyboard"))).registry "event0" = some 0 ∧
    (on_delete_device (on_new_device initialState "event0"
      (some (some "AT Keyboard"))) "event0").registry = [] ∧
    (on_delete_device (on_new_device initialState "event0"
      (some (some "AT Keyboard"))) "event0").listeners =
      [{ lid := 0, device := "event0", running := true, handleOpen := true }] := by
  refine ⟨?_, ?_, ?_⟩ <;> decide

/-- Claim C4 (amended): `on_delete_device` only removes the registry entry
(dropping the `JoinHandle` detaches the thread): the listeners — their
execution and their open handles — are untouched; a listener stops and
releases its handle only when its own device read fails. -/
theorem c4_remove_detaches_listener (st : ManagerState) (name : String) (lid : Nat)
    (h : containsKey st.registry name = true) :
    (on_delete_device st name).registry = removeAssoc st.registry name ∧
    containsKey (on_delete_device st name).registry name = false ∧
    (on_delete_device st name).listeners = st.listeners ∧
    (∀ l ∈ (on_fetch_error st lid).listeners, l.lid = lid →
      l.running = false ∧ l.handleOpen = false) := by
  refine ⟨by simp [on_delete_device, h], ?_, by simp [on_delete_device, h], ?_⟩
  · simp only [on_delete_device, h, if_true]
    exact containsKey_removeAssoc_self st.registry name
  · intro l hl hlid
    simp only [on_fetch_error, List.mem_map] at hl
    obtain ⟨l0, _, rfl⟩ := hl
    by_cases h0 : l0.lid = lid
    · simp [h0]
    · simp [h0] at hlid

/-- Witness for the amended C4, at a concrete state tracking `event0`. -/
theorem c4_remove_detaches_listener_witness :
    (on_delete_device (on_new_device initialState "event0"
      (some (some "AT Keyboard"))) "event0").registry =
      removeAssoc (on_new_device initialState "event0"
        (some (some "AT Keyboard"))).registry "event0" ∧
    containsKey (on_delete_device (on_new_device initialState "event0"
      (some (some "AT Keyboard"))) "event0").registry "event0" = false ∧
    (on_delete_device (on_new_device initialState "event0"
      (some (some "AT Keyboard"))) "event0").listeners =
      (on_new_device initialState "event0" (some (some "AT Keyboard"))).listeners ∧
    (∀ l ∈ (on_fetch_error (on_new_device initialState "event0"
      (some (some "AT Keyboard"))) 0).listeners, l.lid = 0 →
      l.running = false ∧ l.handleOpen = false) :=
  c4_remove_detaches_listener
    (on_new_device initialState "event0" (some (some "AT Keyboard"))) "event0" 0 (by decide)
